import Mathlib

/-!
Verification development for the resource-manager server
(src/tasks/task1/src/resource_manager/resmgr.c and client.c).

The command dispatcher `handle_command`, the device state, the line
preprocessing of `client_thread`, and the `sscanf`-based command parsing
are embedded shallowly.  A `Char` stands for one byte of the C program;
C strings are `List Char` values read up to their first NUL byte.  The
`unsigned long` counters are modelled as naturals reduced modulo 2^64.
Responses are collected as a list of strings, one element per
`send_response` call the C code performs, so that "exactly one response
per request" is a provable property rather than a modelling artifact.
-/

/-- The NUL byte, terminator of C strings. -/
def charNUL : Char := Char.ofNat 0

/-- C `isspace` in the default locale: space, \t, \n, \v, \f, \r. -/
def isCSpace (c : Char) : Bool :=
  c == ' ' || c == '\t' || c == '\n' || c == Char.ofNat 11 || c == Char.ofNat 12 || c == '\r'

/-- The contents of a C string: the bytes strictly before the first NUL.
`strlen` of the C string is the length of this list. -/
def asCStr (s : List Char) : List Char :=
  s.takeWhile (fun c => c != charNUL)

/-- `printf` conversion `%.*s` with precision `prec` applied to byte array
`s`: at most `prec` bytes are printed, stopping early at a NUL byte. -/
def printfPrec (prec : Nat) (s : List Char) : List Char :=
  (s.take prec).takeWhile (fun c => c != charNUL)

/-- DEVICE_BUFFER_SIZE in resmgr.c. -/
def DEVICE_BUFFER_SIZE : Nat := 1024

/-- The device state of resmgr.c (`device_t`): the byte buffer
`char buffer[1024]` (modelled as a `List Char` of length 1024), the
logical size, the reserved cursors, the access level
(0 = read-only, 1 = read-write) and the two operation counters.
The pthread mutex serializes the commands of all clients, so the device
evolves by a sequence of `handle_command` steps; the mutex itself needs
no model beyond that sequencing. -/
structure Device where
  buffer : List Char
  buffer_size : Nat
  read_pos : Nat
  write_pos : Nat
  access_level : Nat
  read_count : Nat
  write_count : Nat
  deriving Repr, DecidableEq

/-- The welcome message `device_init` copies into the buffer.  (In C it is
a Russian UTF-8 literal; the model abstracts each of its characters to one
byte, which affects only the concrete initial `buffer_size`.) -/
def welcomeMsg : List Char := "Добро пожаловать в менеджер ресурсов!".toList

/-- `device_init` (resmgr.c lines 126-133): zero the whole structure, set
access level to read-write, `strcpy` the welcome message into the buffer
and set `buffer_size` to its `strlen`. -/
def device_init : Device :=
  { buffer := welcomeMsg ++ List.replicate (DEVICE_BUFFER_SIZE - welcomeMsg.length) charNUL
    buffer_size := welcomeMsg.length
    read_pos := 0
    write_pos := 0
    access_level := 1
    read_count := 0
    write_count := 0 }

/-- Response of the malformed-parse branch (resmgr.c line 143). -/
def errInvalidFormat : String := "ERROR: Неверный формат команды"

/-- Response of the rejected DATA and CLEAR branches (lines 164, 183). -/
def errReadOnly : String := "ERROR: Устройство доступно только для чтения"

/-- Response of the SET_ACCESS branch on an unrecognized token (line 210). -/
def errInvalidAccess : String := "ERROR: Неверный уровень доступа (read-only/read-write)"

/-- Response of the unknown-command branch (line 225). -/
def errUnknown : String := "ERROR: Неизвестная команда. Используйте HELP для справки."

/-- Response of the HELP branch (lines 215-222). -/
def helpText : String :=
  "Доступные команды:\nREAD - чтение данных\nDATA <text> - запись данных\nCLEAR - очистка буфера\nSTATUS - статистика устройства\nSET_ACCESS <read-only|read-write> - установка уровня доступа\nHELP - эта справка"

/-- The STATUS response (lines 194-199): `snprintf` into a 256-byte array;
the formatted text is at most ~116 bytes, so no truncation occurs and the
model may concatenate directly. -/
def statusLine (d : Device) : String :=
  "STATUS: buffer_size=" ++ toString d.buffer_size ++
  ", reads=" ++ toString d.read_count ++
  ", writes=" ++ toString d.write_count ++
  ", access=" ++ (if d.access_level = 0 then "read-only" else "read-write")

/-- The `sscanf(cmd, "%63s %1023[^\n]", command, argument)` call of
`handle_command` (line 142).  `%63s` skips whitespace and reads at most 63
non-whitespace bytes; if no byte is read the call returns less than 1 and
the command is malformed (`none`).  The space directive then skips
whitespace and `%1023[^\n]` reads at most 1023 bytes up to a newline; if
it matches no byte, `sscanf` returns 1 and the `argument` array is left
untouched (`none` in the second component — the caller then sees whatever
bytes the uninitialized array held). -/
def parseCmd (cmd : List Char) : Option (List Char × Option (List Char)) :=
  let rest0 := cmd.dropWhile isCSpace
  let command := (rest0.takeWhile (fun c => !(isCSpace c))).take 63
  if command = [] then none
  else
    let rest1 := rest0.drop command.length
    let rest2 := rest1.dropWhile isCSpace
    let argument := (rest2.takeWhile (fun c => c != '\n')).take 1023
    if argument = [] then some (command, none) else some (command, some argument)

/-- The number of bytes the DATA branch stores (lines 166-169): the
`strlen` of the `argument` array, clamped to `DEVICE_BUFFER_SIZE - 1`
when it is at least `DEVICE_BUFFER_SIZE`. -/
def writeLen (garbage : List Char) (argOpt : Option (List Char)) : Nat :=
  if DEVICE_BUFFER_SIZE ≤ (asCStr (argOpt.getD garbage)).length then DEVICE_BUFFER_SIZE - 1
  else (asCStr (argOpt.getD garbage)).length

/-- The dispatch part of `handle_command` (lines 147-229), after a
successful parse.  `garbage` models the contents of the stack array
`argument` when `sscanf` did not write it (it is uninitialized in C, so
the model quantifies over it); `asCStr` reads it as the C string the code
would see.  Each `send_response` call contributes one element to the
returned list. -/
def dispatch (garbage : List Char) (d : Device) (command : List Char)
    (argOpt : Option (List Char)) : Device × List String :=
  if command = "READ".toList then
    let d' : Device := { d with read_count := (d.read_count + 1) % 2 ^ 64 }
    if d.buffer_size = 0 then
      (d', ["BUFFER_EMPTY"])
    else
      (d', ["DATA: " ++ String.mk (printfPrec d.buffer_size d.buffer)])
  else if command = "DATA".toList then
    if d.access_level = 0 then
      (d, [errReadOnly])
    else
      let argument := asCStr (argOpt.getD garbage)
      let len := if DEVICE_BUFFER_SIZE ≤ argument.length then DEVICE_BUFFER_SIZE - 1
                 else argument.length
      ({ d with buffer := argument.take len ++ [charNUL] ++ d.buffer.drop (len + 1)
                buffer_size := len
                write_count := (d.write_count + 1) % 2 ^ 64 },
       ["WRITTEN: " ++ toString len ++ " bytes"])
  else if command = "CLEAR".toList then
    if d.access_level = 0 then
      (d, [errReadOnly])
    else
      ({ d with buffer := d.buffer.set 0 charNUL
                buffer_size := 0
                read_pos := 0
                write_pos := 0 },
       ["BUFFER_CLEARED"])
  else if command = "STATUS".toList then
    (d, [statusLine d])
  else if command = "SET_ACCESS".toList then
    let argument := asCStr (argOpt.getD garbage)
    if argument = "read-only".toList then
      ({ d with access_level := 0 }, ["ACCESS_SET: read-only"])
    else if argument = "read-write".toList then
      ({ d with access_level := 1 }, ["ACCESS_SET: read-write"])
    else
      (d, [errInvalidAccess])
  else if command = "HELP".toList then
    (d, [helpText])
  else
    (d, [errUnknown])

/-- `handle_command` (lines 136-230): read the incoming bytes as a C
string, parse with `sscanf`, answer the malformed-format error if fewer
than one item matched, and otherwise dispatch on the keyword under the
device mutex.  The function is total: no branch aborts the process. -/
def handle_command (garbage : List Char) (d : Device) (cmd : List Char) :
    Device × List String :=
  match parseCmd (asCStr cmd) with
  | none => (d, [errInvalidFormat])
  | some (command, argOpt) => dispatch garbage d command argOpt

/-- A sequence of commands applied to the device, in the total order the
device mutex imposes on the (possibly many) client threads. -/
def runCmds (garbage : List Char) (d : Device) (cmds : List (List Char)) : Device :=
  cmds.foldl (fun s c => (handle_command garbage s c).1) d

/-- Whether a command line is a SET_ACCESS that sets read-write mode (the
only way the access level can become nonzero again); the uninitialized
`argument` array contents `garbage` take part exactly as in `dispatch`. -/
def isSetRW (garbage : List Char) (c : List Char) : Bool :=
  match parseCmd (asCStr c) with
  | some (command, argOpt) =>
      command == "SET_ACCESS".toList && asCStr (argOpt.getD garbage) == "read-write".toList
  | none => false

/-- Whether a parsed command line carries the DATA or the CLEAR keyword. -/
def isDataOrClear (c : List Char) : Bool :=
  match parseCmd (asCStr c) with
  | some (command, _) => command == "DATA".toList || command == "CLEAR".toList
  | none => false

/-- The line preprocessing of `client_thread` (resmgr.c lines 262-266) on
a received message of `n = buf.length` bytes: NUL-terminate, replace a
final newline byte by NUL, then replace a carriage return at position
`n-2` by NUL.  The two tests are not nested: the second fires even when
the final byte is no newline.  (For `n = 1` the C code reads `buf[-1]`,
out of bounds; the theorems therefore only quantify over `n ≥ 2`.) -/
def strip_line (buf : List Char) : List Char :=
  let n := buf.length
  let b1 := if buf.get? (n - 1) = some '\n' then buf.set (n - 1) charNUL else buf
  let b2 := if b1.get? (n - 2) = some '\r' then b1.set (n - 2) charNUL else b1
  b2

/-- The device as modified only in its access level. -/
def setAcc (d : Device) (a : Nat) : Device :=
  { d with access_level := a }

/-- The buffer invariant of claim C9: the array keeps its 1024 bytes, the
logical size stays strictly below the capacity, and the byte at index
`buffer_size` is NUL. -/
def DeviceInv (d : Device) : Prop :=
  d.buffer.length = DEVICE_BUFFER_SIZE ∧
  d.buffer_size ≤ DEVICE_BUFFER_SIZE - 1 ∧
  d.buffer.get? d.buffer_size = some charNUL

instance : DecidablePred DeviceInv := fun d => by
  unfold DeviceInv; infer_instance

/-! ## Branch lemmas for the dispatcher -/

theorem handle_command_of_parse (g : List Char) (d : Device) (c : List Char)
    (k : List Char) (a : Option (List Char)) (hp : parseCmd (asCStr c) = some (k, a)) :
    handle_command g d c = dispatch g d k a := by
  unfold handle_command
  rw [hp]

theorem handle_command_of_malformed (g : List Char) (d : Device) (c : List Char)
    (hp : parseCmd (asCStr c) = none) :
    handle_command g d c = (d, [errInvalidFormat]) := by
  unfold handle_command
  rw [hp]

theorem dispatch_read (g : List Char) (d : Device) (a : Option (List Char)) :
    dispatch g d "READ".toList a =
      ({ d with read_count := (d.read_count + 1) % 2 ^ 64 },
       if d.buffer_size = 0 then ["BUFFER_EMPTY"]
       else ["DATA: " ++ String.mk (printfPrec d.buffer_size d.buffer)]) := by
  unfold dispatch
  rw [if_pos rfl]
  by_cases h : d.buffer_size = 0 <;> simp [h]

theorem dispatch_data_ro (g : List Char) (d : Device) (a : Option (List Char))
    (h : d.access_level = 0) :
    dispatch g d "DATA".toList a = (d, [errReadOnly]) := by
  unfold dispatch
  rw [if_neg (by decide), if_pos rfl, if_pos h]

theorem dispatch_data_rw (g : List Char) (d : Device) (a : Option (List Char))
    (h : ¬ d.access_level = 0) :
    dispatch g d "DATA".toList a =
      ({ d with buffer := (asCStr (a.getD g)).take (writeLen g a) ++ [charNUL] ++
                  d.buffer.drop (writeLen g a + 1)
                buffer_size := writeLen g a
                write_count := (d.write_count + 1) % 2 ^ 64 },
       ["WRITTEN: " ++ toString (writeLen g a) ++ " bytes"]) := by
  unfold dispatch writeLen
  rw [if_neg (by decide), if_pos rfl, if_neg h]

theorem dispatch_clear_ro (g : List Char) (d : Device) (a : Option (List Char))
    (h : d.access_level = 0) :
    dispatch g d "CLEAR".toList a = (d, [errReadOnly]) := by
  unfold dispatch
  rw [if_neg (by decide), if_neg (by decide), if_pos rfl, if_pos h]

theorem dispatch_clear_rw (g : List Char) (d : Device) (a : Option (List Char))
    (h : ¬ d.access_level = 0) :
    dispatch g d "CLEAR".toList a =
      ({ d with buffer := d.buffer.set 0 charNUL
                buffer_size := 0
                read_pos := 0
                write_pos := 0 },
       ["BUFFER_CLEARED"]) := by
  unfold dispatch
  rw [if_neg (by decide), if_neg (by decide), if_pos rfl, if_neg h]

theorem dispatch_status (g : List Char) (d : Device) (a : Option (List Char)) :
    dispatch g d "STATUS".toList a = (d, [statusLine d]) := by
  unfold dispatch
  rw [if_neg (by decide), if_neg (by decide), if_neg (by decide), if_pos rfl]

theorem dispatch_set_ro (g : List Char) (d : Device) (a : Option (List Char))
    (h : asCStr (a.getD g) = "read-only".toList) :
    dispatch g d "SET_ACCESS".toList a = ({ d with access_level := 0 }, ["ACCESS_SET: read-only"]) := by
  unfold dispatch
  rw [if_neg (by decide), if_neg (by decide), if_neg (by decide), if_neg (by decide),
    if_pos rfl, if_pos h]

theorem dispatch_set_rw (g : List Char) (d : Device) (a : Option (List Char))
    (h : asCStr (a.getD g) = "read-write".toList) :
    dispatch g d "SET_ACCESS".toList a = ({ d with access_level := 1 }, ["ACCESS_SET: read-write"]) := by
  unfold dispatch
  rw [if_neg (by decide), if_neg (by decide), if_neg (by decide), if_neg (by decide),
    if_pos rfl, if_neg (by rw [h]; decide), if_pos h]

theorem dispatch_set_bad (g : List Char) (d : Device) (a : Option (List Char))
    (h1 : ¬ asCStr (a.getD g) = "read-only".toList)
    (h2 : ¬ asCStr (a.getD g) = "read-write".toList) :
    dispatch g d "SET_ACCESS".toList a = (d, [errInvalidAccess]) := by
  unfold dispatch
  rw [if_neg (by decide), if_neg (by decide), if_neg (by decide), if_neg (by decide),
    if_pos rfl, if_neg h1, if_neg h2]

theorem dispatch_help (g : List Char) (d : Device) (a : Option (List Char)) :
    dispatch g d "HELP".toList a = (d, [helpText]) := by
  unfold dispatch
  rw [if_neg (by decide), if_neg (by decide), if_neg (by decide), if_neg (by decide),
    if_neg (by decide), if_pos rfl]

theorem dispatch_unknown (g : List Char) (d : Device) (k : List Char) (a : Option (List Char))
    (h1 : ¬ k = "READ".toList) (h2 : ¬ k = "DATA".toList) (h3 : ¬ k = "CLEAR".toList)
    (h4 : ¬ k = "STATUS".toList) (h5 : ¬ k = "SET_ACCESS".toList) (h6 : ¬ k = "HELP".toList) :
    dispatch g d k a = (d, [errUnknown]) := by
  unfold dispatch
  rw [if_neg h1, if_neg h2, if_neg h3, if_neg h4, if_neg h5, if_neg h6]

/-! ## List helper lemmas -/

theorem takeWhile_ne_nul_of_not_mem (l : List Char) (h : charNUL ∉ l) :
    l.takeWhile (fun c => c != charNUL) = l := by
  rw [List.takeWhile_eq_self_iff]
  intro x hx
  rw [bne_iff_ne]
  intro he
  exact h (he ▸ hx)

theorem printfPrec_eq_take (n : Nat) (l : List Char) (h : charNUL ∉ l.take n) :
    printfPrec n l = l.take n := by
  unfold printfPrec
  exact takeWhile_ne_nul_of_not_mem _ h

theorem asCStr_of_not_mem (l : List Char) (h : charNUL ∉ l) : asCStr l = l :=
  takeWhile_ne_nul_of_not_mem l h

theorem writeLen_le (g : List Char) (a : Option (List Char)) :
    writeLen g a ≤ DEVICE_BUFFER_SIZE - 1 := by
  unfold writeLen
  split
  · exact Nat.le_refl _
  · next h => exact Nat.le_of_lt_succ (Nat.lt_of_not_le h)

theorem writeLen_le_length (g : List Char) (a : Option (List Char)) :
    writeLen g a ≤ (asCStr (a.getD g)).length := by
  unfold writeLen
  split
  · next h => exact Nat.le_trans (Nat.sub_le _ _) h
  · exact Nat.le_refl _

/-! ## Claim theorems -/

/-- Claim C2: every READ command increments `readCount` by exactly one
(modulo 2^64, the width of the C `unsigned long`), regardless of whether
the buffer is empty; it mutates neither the buffer bytes nor
`bufferSize`; and it answers `BUFFER_EMPTY` when `bufferSize = 0` and
`DATA: <content>` with the current `bufferSize`-byte buffer contents
otherwise.  The NUL-freeness hypothesis on the logical buffer contents
holds in every reachable device state. -/
theorem C2_read_behaviour (g : List Char) (d : Device) (c : List Char)
    (aOpt : Option (List Char))
    (hp : parseCmd (asCStr c) = some ("READ".toList, aOpt))
    (hnf : charNUL ∉ d.buffer.take d.buffer_size) :
    (handle_command g d c).1.read_count = (d.read_count + 1) % 2 ^ 64 ∧
    (d.read_count + 1 < 2 ^ 64 → (handle_command g d c).1.read_count = d.read_count + 1) ∧
    (handle_command g d c).1.buffer = d.buffer ∧
    (handle_command g d c).1.buffer_size = d.buffer_size ∧
    (d.buffer_size = 0 → (handle_command g d c).2 = ["BUFFER_EMPTY"]) ∧
    (d.buffer_size ≠ 0 →
      (handle_command g d c).2 = ["DATA: " ++ String.mk (d.buffer.take d.buffer_size)]) := by
  rw [handle_command_of_parse g d c _ _ hp, dispatch_read]
  refine ⟨rfl, fun h => Nat.mod_eq_of_lt h, rfl, rfl, fun h => by simp [h], fun h => ?_⟩
  rw [if_neg h, printfPrec_eq_take _ _ hnf]

/-- Witness for C2 at the initial device and the literal line `READ`. -/
theorem C2_read_behaviour_witness :
    parseCmd (asCStr "READ".toList) = some ("READ".toList, none) ∧
    charNUL ∉ device_init.buffer.take device_init.buffer_size ∧
    ((handle_command [] device_init "READ".toList).1.read_count =
        (device_init.read_count + 1) % 2 ^ 64 ∧
     (device_init.read_count + 1 < 2 ^ 64 →
        (handle_command [] device_init "READ".toList).1.read_count = device_init.read_count + 1) ∧
     (handle_command [] device_init "READ".toList).1.buffer = device_init.buffer ∧
     (handle_command [] device_init "READ".toList).1.buffer_size = device_init.buffer_size ∧
     (device_init.buffer_size = 0 →
        (handle_command [] device_init "READ".toList).2 = ["BUFFER_EMPTY"]) ∧
     (device_init.buffer_size ≠ 0 →
        (handle_command [] device_init "READ".toList).2 =
          ["DATA: " ++ String.mk (device_init.buffer.take device_init.buffer_size)])) :=
  ⟨by decide, by decide,
   C2_read_behaviour [] device_init "READ".toList none (by decide) (by decide)⟩

/-- Claim C5: a CLEAR command in read-write mode resets `bufferSize` to 0
and the logical buffer contents to empty, and leaves `readCount`,
`writeCount` and `accessMode` unchanged. -/
theorem C5_clear_frame (g : List Char) (d : Device) (c : List Char)
    (aOpt : Option (List Char))
    (hp : parseCmd (asCStr c) = some ("CLEAR".toList, aOpt))
    (ha : ¬ d.access_level = 0) :
    (handle_command g d c).1.buffer_size = 0 ∧
    (handle_command g d c).1.buffer.take (handle_command g d c).1.buffer_size = [] ∧
    (handle_command g d c).1.read_count = d.read_count ∧
    (handle_command g d c).1.write_count = d.write_count ∧
    (handle_command g d c).1.access_level = d.access_level ∧
    (handle_command g d c).2 = ["BUFFER_CLEARED"] := by
  rw [handle_command_of_parse g d c _ _ hp, dispatch_clear_rw g d aOpt ha]
  exact ⟨rfl, rfl, rfl, rfl, rfl, rfl⟩

/-- Witness for C5 at the initial device and the literal line `CLEAR`. -/
theorem C5_clear_frame_witness :
    parseCmd (asCStr "CLEAR".toList) = some ("CLEAR".toList, none) ∧
    ¬ device_init.access_level = 0 ∧
    ((handle_command [] device_init "CLEAR".toList).1.buffer_size = 0 ∧
     (handle_command [] device_init "CLEAR".toList).1.buffer.take
        (handle_command [] device_init "CLEAR".toList).1.buffer_size = [] ∧
     (handle_command [] device_init "CLEAR".toList).1.read_count = device_init.read_count ∧
     (handle_command [] device_init "CLEAR".toList).1.write_count = device_init.write_count ∧
     (handle_command [] device_init "CLEAR".toList).1.access_level = device_init.access_level ∧
     (handle_command [] device_init "CLEAR".toList).2 = ["BUFFER_CLEARED"]) :=
  ⟨by decide, by decide,
   C5_clear_frame [] device_init "CLEAR".toList none (by decide) (by decide)⟩

/-- Claim C3: a DATA command in read-write mode stores
`min(strlen(argument), 1023)` bytes: beyond `capacity - 1 = 1023` bytes
the stored data is truncated to exactly 1023 bytes and the response
reports 1023; at or below the limit the full argument is stored
unmodified.  `bufferSize` becomes the stored length, `writeCount` is
incremented by exactly one (modulo 2^64, the C `unsigned long` width) and
the response is `WRITTEN: <n> bytes` with `n` the count of bytes actually
stored. -/
theorem C3_data_truncation (g : List Char) (d : Device) (c : List Char)
    (aOpt : Option (List Char))
    (hp : parseCmd (asCStr c) = some ("DATA".toList, aOpt))
    (ha : ¬ d.access_level = 0) :
    ((asCStr (aOpt.getD g)).length > DEVICE_BUFFER_SIZE - 1 →
       (handle_command g d c).1.buffer_size = DEVICE_BUFFER_SIZE - 1 ∧
       (handle_command g d c).1.buffer.take (DEVICE_BUFFER_SIZE - 1) =
         (asCStr (aOpt.getD g)).take (DEVICE_BUFFER_SIZE - 1) ∧
       (handle_command g d c).2 =
         ["WRITTEN: " ++ toString (DEVICE_BUFFER_SIZE - 1) ++ " bytes"]) ∧
    ((asCStr (aOpt.getD g)).length ≤ DEVICE_BUFFER_SIZE - 1 →
       (handle_command g d c).1.buffer_size = (asCStr (aOpt.getD g)).length ∧
       (handle_command g d c).1.buffer.take (asCStr (aOpt.getD g)).length =
         asCStr (aOpt.getD g) ∧
       (handle_command g d c).2 =
         ["WRITTEN: " ++ toString (asCStr (aOpt.getD g)).length ++ " bytes"]) ∧
    (handle_command g d c).1.write_count = (d.write_count + 1) % 2 ^ 64 ∧
    (d.write_count + 1 < 2 ^ 64 →
       (handle_command g d c).1.write_count = d.write_count + 1) := by
  rw [handle_command_of_parse g d c _ _ hp, dispatch_data_rw g d aOpt ha]
  refine ⟨fun hlong => ?_, fun hshort => ?_, rfl, fun h => Nat.mod_eq_of_lt h⟩
  · have hw : writeLen g aOpt = DEVICE_BUFFER_SIZE - 1 := by
      unfold writeLen
      rw [if_pos ?_]
      unfold DEVICE_BUFFER_SIZE at hlong ⊢
      omega
    refine ⟨hw, ?_, by rw [hw]⟩
    rw [hw]
    have hlen : ((asCStr (aOpt.getD g)).take (DEVICE_BUFFER_SIZE - 1)).length =
        DEVICE_BUFFER_SIZE - 1 := by
      rw [List.length_take]
      omega
    rw [List.append_assoc, List.take_left' hlen]
  · have hw : writeLen g aOpt = (asCStr (aOpt.getD g)).length := by
      unfold writeLen
      rw [if_neg ?_]
      unfold DEVICE_BUFFER_SIZE at hshort ⊢
      omega
    refine ⟨hw, ?_, by rw [hw]⟩
    rw [hw]
    have hlen : ((asCStr (aOpt.getD g)).take (asCStr (aOpt.getD g)).length).length =
        (asCStr (aOpt.getD g)).length := by
      rw [List.length_take, Nat.min_self]
    rw [List.append_assoc, List.take_left' hlen, List.take_length]

/-- Witness for C3 at the initial device and the literal line `DATA hi`. -/
theorem C3_data_truncation_witness :
    parseCmd (asCStr "DATA hi".toList) = some ("DATA".toList, some "hi".toList) ∧
    ¬ device_init.access_level = 0 ∧
    (((asCStr ((some "hi".toList).getD [])).length > DEVICE_BUFFER_SIZE - 1 →
       (handle_command [] device_init "DATA hi".toList).1.buffer_size = DEVICE_BUFFER_SIZE - 1 ∧
       (handle_command [] device_init "DATA hi".toList).1.buffer.take (DEVICE_BUFFER_SIZE - 1) =
         (asCStr ((some "hi".toList).getD [])).take (DEVICE_BUFFER_SIZE - 1) ∧
       (handle_command [] device_init "DATA hi".toList).2 =
         ["WRITTEN: " ++ toString (DEVICE_BUFFER_SIZE - 1) ++ " bytes"]) ∧
     ((asCStr ((some "hi".toList).getD [])).length ≤ DEVICE_BUFFER_SIZE - 1 →
       (handle_command [] device_init "DATA hi".toList).1.buffer_size =
         (asCStr ((some "hi".toList).getD [])).length ∧
       (handle_command [] device_init "DATA hi".toList).1.buffer.take
         (asCStr ((some "hi".toList).getD [])).length = asCStr ((some "hi".toList).getD []) ∧
       (handle_command [] device_init "DATA hi".toList).2 =
         ["WRITTEN: " ++ toString (asCStr ((some "hi".toList).getD [])).length ++ " bytes"]) ∧
     (handle_command [] device_init "DATA hi".toList).1.write_count =
       (device_init.write_count + 1) % 2 ^ 64 ∧
     (device_init.write_count + 1 < 2 ^ 64 →
       (handle_command [] device_init "DATA hi".toList).1.write_count =
         device_init.write_count + 1)) :=
  ⟨by decide, by decide,
   C3_data_truncation [] device_init "DATA hi".toList (some "hi".toList) (by decide) (by decide)⟩

set_option maxRecDepth 8192 in
/-- Claim C4: the dispatcher is total and every branch — malformed parse,
permission denial, unknown keyword, and each valid command — performs
exactly one `send_response` call, with a nonempty response text: never
silence, never more than one response, and no process abort (the model
`handle_command` is a total function, mirroring the absence of any
aborting call in the C branches). -/
theorem C4_one_response (g : List Char) (d : Device) (c : List Char) :
    ∃ r, (handle_command g d c).2 = [r] ∧ 0 < r.length := by
  unfold handle_command
  cases hp : parseCmd (asCStr c) with
  | none => exact ⟨errInvalidFormat, rfl, by decide⟩
  | some ka =>
    obtain ⟨k, a⟩ := ka
    show ∃ r, (dispatch g d k a).2 = [r] ∧ 0 < r.length
    by_cases h1 : k = "READ".toList
    · subst h1
      rw [dispatch_read]
      by_cases hb : d.buffer_size = 0
      · exact ⟨"BUFFER_EMPTY", by simp [hb], by decide⟩
      · refine ⟨_, by rw [if_neg hb], ?_⟩
        rw [String.length_append]
        have hpos : 0 < "DATA: ".length := by decide
        omega
    · by_cases h2 : k = "DATA".toList
      · subst h2
        by_cases hacc : d.access_level = 0
        · exact ⟨errReadOnly, by rw [dispatch_data_ro g d a hacc], by decide⟩
        · refine ⟨_, by rw [dispatch_data_rw g d a hacc], ?_⟩
          rw [String.length_append, String.length_append]
          have hpos : 0 < "WRITTEN: ".length := by decide
          omega
      · by_cases h3 : k = "CLEAR".toList
        · subst h3
          by_cases hacc : d.access_level = 0
          · exact ⟨errReadOnly, by rw [dispatch_clear_ro g d a hacc], by decide⟩
          · exact ⟨"BUFFER_CLEARED", by rw [dispatch_clear_rw g d a hacc], by decide⟩
        · by_cases h4 : k = "STATUS".toList
          · subst h4
            refine ⟨statusLine d, by rw [dispatch_status], ?_⟩
            unfold statusLine
            simp only [String.length_append]
            have hpos : 0 < "STATUS: buffer_size=".length := by decide
            omega
          · by_cases h5 : k = "SET_ACCESS".toList
            · subst h5
              by_cases hro : asCStr (a.getD g) = "read-only".toList
              · exact ⟨"ACCESS_SET: read-only", by rw [dispatch_set_ro g d a hro], by decide⟩
              · by_cases hrw : asCStr (a.getD g) = "read-write".toList
                · exact ⟨"ACCESS_SET: read-write", by rw [dispatch_set_rw g d a hrw], by decide⟩
                · exact ⟨errInvalidAccess, by rw [dispatch_set_bad g d a hro hrw], by decide⟩
            · by_cases h6 : k = "HELP".toList
              · subst h6
                exact ⟨helpText, by rw [dispatch_help], by decide⟩
              · exact ⟨errUnknown, by rw [dispatch_unknown g d k a h1 h2 h3 h4 h5 h6], by decide⟩

/-- Claim C6 (amended): a SET_ACCESS command whose argument is neither of
the exact tokens `read-only` and `read-write` leaves the entire device
state unchanged and is answered with the source's invalid-access error
line (`errInvalidAccess`); a recognized token sets the access level
accordingly and is answered `ACCESS_SET: <mode>`. -/
theorem C6_set_access (g : List Char) (d : Device) (c : List Char)
    (aOpt : Option (List Char))
    (hp : parseCmd (asCStr c) = some ("SET_ACCESS".toList, aOpt)) :
    (¬ asCStr (aOpt.getD g) = "read-only".toList →
     ¬ asCStr (aOpt.getD g) = "read-write".toList →
       handle_command g d c = (d, [errInvalidAccess])) ∧
    (asCStr (aOpt.getD g) = "read-only".toList →
       handle_command g d c = (setAcc d 0, ["ACCESS_SET: read-only"])) ∧
    (asCStr (aOpt.getD g) = "read-write".toList →
       handle_command g d c = (setAcc d 1, ["ACCESS_SET: read-write"])) := by
  rw [handle_command_of_parse g d c _ _ hp]
  exact ⟨fun h1 h2 => dispatch_set_bad g d aOpt h1 h2,
         fun h => dispatch_set_ro g d aOpt h,
         fun h => dispatch_set_rw g d aOpt h⟩

/-- Witness for C6 at the initial device and the line `SET_ACCESS foo`. -/
theorem C6_set_access_witness :
    parseCmd (asCStr "SET_ACCESS foo".toList) =
      some ("SET_ACCESS".toList, some "foo".toList) ∧
    ((¬ asCStr ((some "foo".toList).getD []) = "read-only".toList →
      ¬ asCStr ((some "foo".toList).getD []) = "read-write".toList →
        handle_command [] device_init "SET_ACCESS foo".toList = (device_init, [errInvalidAccess])) ∧
     (asCStr ((some "foo".toList).getD []) = "read-only".toList →
        handle_command [] device_init "SET_ACCESS foo".toList =
          (setAcc device_init 0, ["ACCESS_SET: read-only"])) ∧
     (asCStr ((some "foo".toList).getD []) = "read-write".toList →
        handle_command [] device_init "SET_ACCESS foo".toList =
          (setAcc device_init 1, ["ACCESS_SET: read-write"]))) :=
  ⟨by decide, C6_set_access [] device_init "SET_ACCESS foo".toList (some "foo".toList) (by decide)⟩

/-- Counterexample to claim C6 as stated: at the concrete line
`SET_ACCESS foo` the response is the source's Russian error line, not the
English line `ERROR: Invalid access level (read-only/read-write)` the
claim requires. -/
theorem C6_counterexample :
    (handle_command [] device_init "SET_ACCESS foo".toList).2 ≠
      ["ERROR: Invalid access level (read-only/read-write)"] := by decide

/-- The keyword-`takeWhile` after a whitespace-`dropWhile` is empty
exactly when the `dropWhile` consumed the whole list. -/
theorem takeWhile_not_dropWhile_eq_nil (p : Char → Bool) (l : List Char) :
    (l.dropWhile p).takeWhile (fun c => !(p c)) = [] ↔ l.dropWhile p = [] := by
  induction l with
  | nil => simp
  | cons a l ih =>
    rw [List.dropWhile_cons]
    by_cases h : p a
    · rw [if_pos h]
      exact ih
    · rw [if_neg h, List.takeWhile_cons, if_pos (by simp [h])]
      simp

/-- `sscanf` matches fewer than one item exactly when the C-string input
is exhausted by the initial whitespace skip of `%63s`. -/
theorem parseCmd_eq_none_iff (l : List Char) :
    parseCmd l = none ↔ l.dropWhile isCSpace = [] := by
  simp only [parseCmd]
  by_cases hc : ((l.dropWhile isCSpace).takeWhile (fun c => !(isCSpace c))).take 63 = []
  · rw [if_pos hc]
    simp only [true_iff]
    have hT : (l.dropWhile isCSpace).takeWhile (fun c => !(isCSpace c)) = [] :=
      (List.take_eq_nil_iff.mp hc).resolve_left (by decide)
    exact (takeWhile_not_dropWhile_eq_nil _ _).mp hT
  · rw [if_neg hc]
    constructor
    · intro h
      exfalso
      revert h
      split <;> intro h <;> exact Option.noConfusion h
    · intro hd
      exfalso
      apply hc
      rw [show (l.dropWhile isCSpace).takeWhile (fun c => !(isCSpace c)) = [] from
        (takeWhile_not_dropWhile_eq_nil _ _).mpr hd]
      rfl

/-- Claim C7 (amended): an input line from which `%63s` can extract no
keyword token — equivalently, a line whose C-string contents are all
whitespace — parses to the malformed variant, and the dispatcher then
answers the source's invalid-format error line (`errInvalidFormat`). -/
theorem C7_malformed (g : List Char) (d : Device) (c : List Char) :
    (parseCmd (asCStr c) = none ↔ ∀ x ∈ asCStr c, isCSpace x) ∧
    (parseCmd (asCStr c) = none → handle_command g d c = (d, [errInvalidFormat])) := by
  refine ⟨?_, fun hp => handle_command_of_malformed g d c hp⟩
  rw [parseCmd_eq_none_iff]
  exact List.dropWhile_eq_nil_iff

/-- Witness for C7 at the empty line: it is malformed and draws the
invalid-format error. -/
theorem C7_malformed_witness :
    handle_command [] device_init ([] : List Char) = (device_init, [errInvalidFormat]) :=
  (C7_malformed [] device_init []).2 (by decide)

/-- Counterexample to claim C7 as stated: the empty line parses to the
malformed variant, but the response is the source's Russian error line,
not the English line `ERROR: Invalid command format` the claim requires. -/
theorem C7_counterexample :
    parseCmd (asCStr ([] : List Char)) = none ∧
    (handle_command [] device_init ([] : List Char)).2 ≠ ["ERROR: Invalid command format"] :=
  ⟨by decide, by decide⟩

/-- Claim C8 (amended): a command whose extracted keyword is outside the
vocabulary READ, DATA, CLEAR, STATUS, SET_ACCESS, HELP leaves the device
state — buffer, `bufferSize`, both counters and the access level —
entirely unchanged, and is answered with the source's unknown-command
error line (`errUnknown`). -/
theorem C8_unknown_command (g : List Char) (d : Device) (c : List Char)
    (k : List Char) (aOpt : Option (List Char))
    (hp : parseCmd (asCStr c) = some (k, aOpt))
    (h1 : ¬ k = "READ".toList) (h2 : ¬ k = "DATA".toList) (h3 : ¬ k = "CLEAR".toList)
    (h4 : ¬ k = "STATUS".toList) (h5 : ¬ k = "SET_ACCESS".toList) (h6 : ¬ k = "HELP".toList) :
    handle_command g d c = (d, [errUnknown]) := by
  rw [handle_command_of_parse g d c _ _ hp]
  exact dispatch_unknown g d k aOpt h1 h2 h3 h4 h5 h6

/-- Witness for C8 at the initial device and the line `FOO`. -/
theorem C8_unknown_command_witness :
    handle_command [] device_init "FOO".toList = (device_init, [errUnknown]) :=
  C8_unknown_command [] device_init "FOO".toList "FOO".toList none
    (by decide) (by decide) (by decide) (by decide) (by decide) (by decide) (by decide)

/-- Counterexample to claim C8 as stated: at the concrete line `FOO` the
response is the source's Russian error line, not the English line
`ERROR: Unknown command. Use HELP for command list.` the claim requires. -/
theorem C8_counterexample :
    (handle_command [] device_init "FOO".toList).2 ≠
      ["ERROR: Unknown command. Use HELP for command list."] := by decide

set_option maxRecDepth 8192 in
/-- Claim C9: after `device_init` and after every command handled by the
dispatcher, the strengthened invariant holds: the buffer array keeps its
1024 bytes, `bufferSize` is at most `capacity - 1 = 1023` (strictly below
the capacity), and the byte at index `bufferSize` is the NUL
terminator. -/
theorem C9_buffer_invariant :
    DeviceInv device_init ∧
    ∀ g d c, DeviceInv d → DeviceInv (handle_command g d c).1 := by
  constructor
  · exact ⟨by decide, by decide, by decide⟩
  · intro g d c hd
    obtain ⟨hlen, hsz, hnul⟩ := hd
    unfold handle_command
    cases hp : parseCmd (asCStr c) with
    | none => exact ⟨hlen, hsz, hnul⟩
    | some ka =>
      obtain ⟨k, a⟩ := ka
      show DeviceInv (dispatch g d k a).1
      by_cases h1 : k = "READ".toList
      · subst h1
        rw [dispatch_read]
        exact ⟨hlen, hsz, hnul⟩
      · by_cases h2 : k = "DATA".toList
        · subst h2
          by_cases hacc : d.access_level = 0
          · rw [dispatch_data_ro g d a hacc]
            exact ⟨hlen, hsz, hnul⟩
          · rw [dispatch_data_rw g d a hacc]
            have hLle : writeLen g a ≤ DEVICE_BUFFER_SIZE - 1 := writeLen_le g a
            have hLlen : writeLen g a ≤ (asCStr (a.getD g)).length := writeLen_le_length g a
            have htake : ((asCStr (a.getD g)).take (writeLen g a)).length = writeLen g a := by
              rw [List.length_take]
              omega
            unfold DEVICE_BUFFER_SIZE at hLle
            refine ⟨?_, hLle, ?_⟩
            · show ((asCStr (a.getD g)).take (writeLen g a) ++ [charNUL] ++
                d.buffer.drop (writeLen g a + 1)).length = DEVICE_BUFFER_SIZE
              rw [List.length_append, List.length_append, htake, List.length_drop, hlen]
              unfold DEVICE_BUFFER_SIZE
              simp only [List.length_cons, List.length_nil]
              omega
            · show ((asCStr (a.getD g)).take (writeLen g a) ++ [charNUL] ++
                d.buffer.drop (writeLen g a + 1)).get? (writeLen g a) = some charNUL
              rw [List.append_assoc, List.get?_append_right (by rw [htake]), htake,
                Nat.sub_self]
              rfl
        · by_cases h3 : k = "CLEAR".toList
          · subst h3
            by_cases hacc : d.access_level = 0
            · rw [dispatch_clear_ro g d a hacc]
              exact ⟨hlen, hsz, hnul⟩
            · rw [dispatch_clear_rw g d a hacc]
              refine ⟨?_, Nat.zero_le _, ?_⟩
              · show (d.buffer.set 0 charNUL).length = DEVICE_BUFFER_SIZE
                rw [List.length_set]
                exact hlen
              · show (d.buffer.set 0 charNUL).get? 0 = some charNUL
                exact List.get?_set_eq_of_lt charNUL (by rw [hlen]; decide)
          · by_cases h4 : k = "STATUS".toList
            · subst h4
              rw [dispatch_status]
              exact ⟨hlen, hsz, hnul⟩
            · by_cases h5 : k = "SET_ACCESS".toList
              · subst h5
                by_cases hro : asCStr (a.getD g) = "read-only".toList
                · rw [dispatch_set_ro g d a hro]
                  exact ⟨hlen, hsz, hnul⟩
                · by_cases hrw : asCStr (a.getD g) = "read-write".toList
                  · rw [dispatch_set_rw g d a hrw]
                    exact ⟨hlen, hsz, hnul⟩
                  · rw [dispatch_set_bad g d a hro hrw]
                    exact ⟨hlen, hsz, hnul⟩
              · by_cases h6 : k = "HELP".toList
                · subst h6
                  rw [dispatch_help]
                  exact ⟨hlen, hsz, hnul⟩
                · rw [dispatch_unknown g d k a h1 h2 h3 h4 h5 h6]
                  exact ⟨hlen, hsz, hnul⟩

set_option maxRecDepth 8192 in
/-- Witness for C9: the invariant holds at the initial device and is kept
by a concrete CLEAR command. -/
theorem C9_buffer_invariant_witness :
    DeviceInv device_init ∧ DeviceInv (handle_command [] device_init "CLEAR".toList).1 :=
  ⟨C9_buffer_invariant.1,
   C9_buffer_invariant.2 [] device_init "CLEAR".toList C9_buffer_invariant.1⟩

/-- Reading one cons cell of a C string. -/
theorem asCStr_cons (a : Char) (l : List Char) :
    asCStr (a :: l) = if (a != charNUL) = true then a :: asCStr l else [] := by
  unfold asCStr
  rw [List.takeWhile_cons]

/-- Writing a NUL byte at index `k` truncates the C string there: the
C-string contents of `l.set k charNUL` are those of the first `k` bytes. -/
theorem asCStr_set_nul (l : List Char) (k : Nat) :
    asCStr (l.set k charNUL) = asCStr (l.take k) := by
  induction l generalizing k with
  | nil => simp
  | cons a l ih =>
    cases k with
    | zero =>
      rw [List.set_cons_zero, List.take_zero, asCStr_cons, if_neg (by simp)]
      rfl
    | succ k =>
      rw [List.set_cons_succ, List.take_succ_cons, asCStr_cons, asCStr_cons]
      by_cases ha : (a != charNUL) = true
      · rw [if_pos ha, if_pos ha, ih]
      · rw [if_neg ha, if_neg ha]

/-- A `set` at an index at or beyond the `take` bound does not change the
taken prefix. -/
theorem take_set_of_le (l : List Char) (i k : Nat) (a : Char) (h : k ≤ i) :
    (l.set i a).take k = l.take k := by
  induction l generalizing i k with
  | nil => rfl
  | cons b l ih =>
    cases k with
    | zero => rfl
    | succ k =>
      cases i with
      | zero => exact absurd h (by omega)
      | succ i =>
        rw [List.set_cons_succ, List.take_succ_cons, List.take_succ_cons,
          ih i k (Nat.le_of_succ_le_succ h)]

/-- Claim C10: for a received message of `n ≥ 2` bytes whose byte at
position `n-2` is a carriage return, `client_thread` truncates the
message at that carriage return before parsing, even when the final byte
is no newline — in particular the three-byte message `X`,CR,`Y` is handed
to the dispatcher as the one-character command `X` — whereas bytes
strictly before position `n-2` are never modified, and a message whose
final byte is no newline and whose byte `n-2` is no carriage return is
passed through entirely unchanged. -/
theorem C10_cr_stripping :
    (∀ buf : List Char, 2 ≤ buf.length → buf.get? (buf.length - 2) = some '\r' →
       asCStr (strip_line buf) = asCStr (buf.take (buf.length - 2))) ∧
    asCStr (strip_line ['X', '\r', 'Y']) = ['X'] ∧
    (∀ buf : List Char, ∀ i, i + 2 < buf.length →
       (strip_line buf).get? i = buf.get? i) ∧
    (∀ buf : List Char, 2 ≤ buf.length →
       ¬ buf.get? (buf.length - 1) = some '\n' →
       ¬ buf.get? (buf.length - 2) = some '\r' →
       strip_line buf = buf) := by
  refine ⟨fun buf h2 hcr => ?_, by decide, fun buf i hi => ?_, fun buf h2 hnl hcr => ?_⟩
  · by_cases hnl : buf.get? (buf.length - 1) = some '\n'
    · have hb : strip_line buf =
          (buf.set (buf.length - 1) charNUL).set (buf.length - 2) charNUL := by
        simp only [strip_line]
        rw [if_pos hnl,
          if_pos ((List.get?_set_ne charNUL buf (by omega)).trans hcr)]
      rw [hb, asCStr_set_nul, take_set_of_le _ _ _ _ (by omega)]
    · have hb : strip_line buf = buf.set (buf.length - 2) charNUL := by
        simp only [strip_line]
        rw [if_neg hnl, if_pos hcr]
      rw [hb, asCStr_set_nul]
  · simp only [strip_line]
    by_cases hnl : buf.get? (buf.length - 1) = some '\n'
    · rw [if_pos hnl]
      by_cases hc : (buf.set (buf.length - 1) charNUL).get? (buf.length - 2) = some '\r'
      · rw [if_pos hc, List.get?_set_ne charNUL _ (by omega),
          List.get?_set_ne charNUL buf (by omega)]
      · rw [if_neg hc, List.get?_set_ne charNUL buf (by omega)]
    · rw [if_neg hnl]
      by_cases hc : buf.get? (buf.length - 2) = some '\r'
      · rw [if_pos hc, List.get?_set_ne charNUL buf (by omega)]
      · rw [if_neg hc]
  · simp only [strip_line]
    rw [if_neg hnl, if_neg hcr]

/-- Witness for C10: a concrete three-byte message with a carriage return
at position `n-2` and no trailing newline. -/
theorem C10_cr_stripping_witness :
    asCStr (strip_line ['A', '\r', 'B']) = asCStr (['A', '\r', 'B'].take 1) :=
  C10_cr_stripping.1 ['A', '\r', 'B'] (by decide) (by decide)

/-! ## Access-mode step lemmas -/

theorem access_step_zero (g : List Char) (d : Device) (c : List Char)
    (h0 : d.access_level = 0) (hns : isSetRW g c = false) :
    (handle_command g d c).1.access_level = 0 := by
  unfold handle_command
  cases hp : parseCmd (asCStr c) with
  | none => exact h0
  | some ka =>
    obtain ⟨k, a⟩ := ka
    show (dispatch g d k a).1.access_level = 0
    by_cases h1 : k = "READ".toList
    · subst h1
      rw [dispatch_read]
      exact h0
    · by_cases h2 : k = "DATA".toList
      · subst h2
        rw [dispatch_data_ro g d a h0]
        exact h0
      · by_cases h3 : k = "CLEAR".toList
        · subst h3
          rw [dispatch_clear_ro g d a h0]
          exact h0
        · by_cases h4 : k = "STATUS".toList
          · subst h4
            rw [dispatch_status]
            exact h0
          · by_cases h5 : k = "SET_ACCESS".toList
            · subst h5
              by_cases hro : asCStr (a.getD g) = "read-only".toList
              · rw [dispatch_set_ro g d a hro]
              · by_cases hrw : asCStr (a.getD g) = "read-write".toList
                · exfalso
                  have ht : isSetRW g c = true := by
                    simp [isSetRW, hp, hrw]
                  rw [hns] at ht
                  exact Bool.noConfusion ht
                · rw [dispatch_set_bad g d a hro hrw]
                  exact h0
            · by_cases h6 : k = "HELP".toList
              · subst h6
                rw [dispatch_help]
                exact h0
              · rw [dispatch_unknown g d k a h1 h2 h3 h4 h5 h6]
                exact h0

theorem reject_step (g : List Char) (d : Device) (c : List Char)
    (h0 : d.access_level = 0) (hdc : isDataOrClear c = true) :
    handle_command g d c = (d, [errReadOnly]) := by
  unfold isDataOrClear at hdc
  cases hp : parseCmd (asCStr c) with
  | none =>
    rw [hp] at hdc
    exact Bool.noConfusion hdc
  | some ka =>
    obtain ⟨k, a⟩ := ka
    rw [hp] at hdc
    rw [handle_command_of_parse g d c _ _ hp]
    have hk : k = "DATA".toList ∨ k = "CLEAR".toList := by
      rcases Bool.or_eq_true_iff.mp hdc with h | h
      · exact Or.inl (by exact beq_iff_eq.mp h)
      · exact Or.inr (by exact beq_iff_eq.mp h)
    rcases hk with hk | hk
    · subst hk
      exact dispatch_data_ro g d a h0
    · subst hk
      exact dispatch_clear_ro g d a h0

theorem runCmds_cons (g : List Char) (d : Device) (c : List Char) (cs : List (List Char)) :
    runCmds g d (c :: cs) = runCmds g (handle_command g d c).1 cs := rfl

theorem runCmds_access_zero (g : List Char) (cmds : List (List Char)) :
    ∀ d : Device, d.access_level = 0 → (∀ c ∈ cmds, isSetRW g c = false) →
      (runCmds g d cmds).access_level = 0 := by
  induction cmds with
  | nil => exact fun d h0 _ => h0
  | cons c cs ih =>
    intro d h0 hall
    rw [runCmds_cons]
    exact ih _ (access_step_zero g d c h0 (hall c (List.mem_cons_self c cs)))
      (fun x hx => hall x (List.mem_cons_of_mem c hx))

/-- Claim C1 (amended): a `SET_ACCESS read-only` always succeeds and sets
the access level to 0; from then on, along any command sequence that
contains no `SET_ACCESS read-write` (the only command that can restore
read-write mode), the device stays read-only and every DATA and CLEAR
command in the sequence — from any client, since the device mutex
serializes all clients into one sequence — is rejected with the read-only
error (`errReadOnly`, the source's Russian text) without any mutation or
counter increment; READ behaves identically in both access modes, and
STATUS is never rejected and never changes the state in either mode,
though its response text reports the current mode. -/
theorem C1_access_gating :
    (∀ g d c aOpt, parseCmd (asCStr c) = some ("SET_ACCESS".toList, aOpt) →
       asCStr (aOpt.getD g) = "read-only".toList →
       handle_command g d c = (setAcc d 0, ["ACCESS_SET: read-only"])) ∧
    (∀ g (d : Device) c, d.access_level = 0 → isDataOrClear c = true →
       handle_command g d c = (d, [errReadOnly])) ∧
    (∀ g (d : Device) cmds, d.access_level = 0 →
       (∀ c ∈ cmds, isSetRW g c = false) →
       (runCmds g d cmds).access_level = 0 ∧
       (∀ pre c post, cmds = pre ++ c :: post → isDataOrClear c = true →
          handle_command g (runCmds g d pre) c = (runCmds g d pre, [errReadOnly]))) ∧
    (∀ g d c aOpt a b, parseCmd (asCStr c) = some ("READ".toList, aOpt) →
       (handle_command g (setAcc d a) c).2 = (handle_command g (setAcc d b) c).2 ∧
       (handle_command g (setAcc d a) c).1 = setAcc (handle_command g (setAcc d b) c).1 a) ∧
    (∀ g d c aOpt, parseCmd (asCStr c) = some ("STATUS".toList, aOpt) →
       handle_command g d c = (d, [statusLine d])) := by
  refine ⟨?_, ?_, ?_, ?_, ?_⟩
  · intro g d c aOpt hp hro
    rw [handle_command_of_parse g d c _ _ hp]
    exact dispatch_set_ro g d aOpt hro
  · exact fun g d c h0 hdc => reject_step g d c h0 hdc
  · intro g d cmds h0 hall
    refine ⟨runCmds_access_zero g cmds d h0 hall, ?_⟩
    intro pre c post hsplit hdc
    have hpre : (runCmds g d pre).access_level = 0 :=
      runCmds_access_zero g pre d h0
        (fun x hx => hall x (hsplit ▸ List.mem_append_left _ hx))
    exact reject_step g (runCmds g d pre) c hpre hdc
  · intro g d c aOpt a b hp
    rw [handle_command_of_parse g (setAcc d a) c _ _ hp,
      handle_command_of_parse g (setAcc d b) c _ _ hp, dispatch_read, dispatch_read]
    exact ⟨rfl, rfl⟩
  · intro g d c aOpt hp
    rw [handle_command_of_parse g d c _ _ hp]
    exact dispatch_status g d aOpt

/-- Witness for C1: a concrete `SET_ACCESS read-only` on the initial
device succeeds and switches the access level to 0. -/
theorem C1_access_gating_witness :
    handle_command [] device_init "SET_ACCESS read-only".toList =
      (setAcc device_init 0, ["ACCESS_SET: read-only"]) :=
  C1_access_gating.1 [] device_init "SET_ACCESS read-only".toList
    (some "read-only".toList) (by decide) (by decide)

/-- Counterexample to claim C1 as stated: STATUS does not behave
identically in the two access modes — at the same device state its
response text differs between read-only and read-write, because it
reports the mode. -/
theorem C1_counterexample :
    (handle_command [] (setAcc device_init 0) "STATUS".toList).2 ≠
      (handle_command [] (setAcc device_init 1) "STATUS".toList).2 := by decide
